import Mathlib

/-
Verification of the go-downloader parallel range-download engine.

The Go source is embedded shallowly: Go `int`/`int64` values become `Int`
with Go's truncating integer division written `Int.tdiv`; fallible calls
return explicit outcome types; the positional sink is modelled as a log of
`(offset, bytes)` writes; HTTP calls are modelled by the `(response, error)`
pairs the net/http client would hand back.
-/

namespace GoDownloader

/-- Size units from the Go `const` block (1024-based). -/
def KB : Int := 1024

/-- MB unit (1 shl 20). -/
def MB : Int := 1048576

/-- GB unit (1 shl 30). -/
def GB : Int := 1073741824

/-- Embedding of `defaultPartDeterminer` from downloader.go. -/
def defaultPartDeterminer (totalSize : Int) : Int :=
  if totalSize < 1 * MB then 1
  else if totalSize < 10 * MB then 4
  else if totalSize < 100 * MB then 16
  else 32

/-- Embedding of `DownloaderConfig`. The two determiner hooks are optional
functions, `none` standing for Go's nil function pointer. -/
structure DownloaderConfig where
  MaxRetries : Int
  MaxConcurrentDownloads : Int
  PartDeterminerFunc : Option (Int → Int)
  ChunkSizeDeterminerFunc : Option (Int → Int)
  ChunkSize : Int

/-- Embedding of `defaultDownloaderConfiguration` from downloader.go. -/
def defaultDownloaderConfiguration : DownloaderConfig :=
  { MaxRetries := 5
    MaxConcurrentDownloads := -1
    PartDeterminerFunc := some defaultPartDeterminer
    ChunkSizeDeterminerFunc :=
      some (fun totalSize => Int.tdiv totalSize (defaultPartDeterminer totalSize))
    ChunkSize := 0 }

/-- Embedding of `downloadManager.determineNumParts`. Go's `/` on int64
truncates toward zero, which is `Int.tdiv`. -/
def determineNumParts (cfg : DownloaderConfig) (totalSize : Int) : Int × Int :=
  if cfg.ChunkSize > 0 then
    (Int.tdiv totalSize cfg.ChunkSize, cfg.ChunkSize)
  else
    match cfg.PartDeterminerFunc with
    | some f =>
      let numParts := f totalSize
      (numParts, Int.tdiv totalSize numParts)
    | none =>
      match cfg.ChunkSizeDeterminerFunc with
      | some g =>
        let chunkSize := g totalSize
        (Int.tdiv totalSize chunkSize, chunkSize)
      | none =>
        let numParts := defaultPartDeterminer totalSize
        (numParts, Int.tdiv totalSize numParts)

/-- Embedding of the `DownloadChunk` struct (download_chunk.go); the sink
the Go struct carries is passed separately to `DownloadChunk.write`. -/
structure DownloadChunk where
  start : Int
  size : Int
  current : Int
  deriving DecidableEq

/-- Embedding of `DownloadChunk.GetBytesRange`. -/
def GetBytesRange (dc : DownloadChunk) : String :=
  "bytes=" ++ toString dc.start ++ "-" ++ toString (dc.start + dc.size - 1)

/-- A batch is a list of chunks, as Go's `type Batch []DownloadChunk`. -/
abbrev Batch := List DownloadChunk

/-- The chunk built at loop index `i` by both batching loops: start is
`i * ChunkSize`; the size is clamped down when it would pass `totalBytes`. -/
def chunkAt (chunkSize totalBytes : Int) (i : Int) : DownloadChunk :=
  let start := i * chunkSize
  let size := if start + chunkSize > totalBytes then totalBytes - start else chunkSize
  { start := start, size := size, current := 0 }

/-- Embedding of `downloadManager.batchChunksByOne`: one chunk per batch. -/
def batchChunksByOne (chunkSize totalBytes numChunks : Int) : List Batch :=
  (List.range numChunks.toNat).map (fun i => [chunkAt chunkSize totalBytes (Int.ofNat i)])

/-- Appending a chunk to batch `idx`, as Go's `batches[idx] = append(...)`;
`none` models the runtime index-out-of-range failure. -/
def appendChunkAt (batches : List Batch) (idx : Nat) (c : DownloadChunk) :
    Option (List Batch) :=
  if idx < batches.length then some (batches.set idx ((batches.getD idx []) ++ [c]))
  else none

/-- Embedding of `downloadManager.batchChunksByMaxConcurrentParts`. The
Go loop `batches[i/batchSize] = append(...)` is a fold; `none` is the
out-of-range failure the Go code would hit as a runtime panic. -/
def batchChunksByMaxConcurrentParts (maxConc chunkSize totalBytes numChunks : Int) :
    Option (List Batch) :=
  if numChunks ≤ maxConc then some (batchChunksByOne chunkSize totalBytes numChunks)
  else
    let batchSize := Int.tdiv numChunks maxConc
    (List.range numChunks.toNat).foldl
      (fun acc i =>
        match acc with
        | none => none
        | some batches =>
          let batchIndex := Int.tdiv (Int.ofNat i) batchSize
          appendChunkAt batches batchIndex.toNat (chunkAt chunkSize totalBytes (Int.ofNat i)))
      (some (List.replicate maxConc.toNat []))

/-- Embedding of `downloadManager.batchChunks`. -/
def batchChunks (cfg : DownloaderConfig) (totalBytes numChunks : Int) :
    Option (List Batch) :=
  if cfg.MaxConcurrentDownloads = -1 then
    some (batchChunksByOne cfg.ChunkSize totalBytes numChunks)
  else
    batchChunksByMaxConcurrentParts cfg.MaxConcurrentDownloads cfg.ChunkSize totalBytes numChunks

/-- The planning stage of `downloadManager.download`: `determineNumParts`
followed by the `dm.cfg.ChunkSize = chunkSize` mutation and `batchChunks`,
with `totalBytes` already set to the probed size. -/
def planChunks (cfg : DownloaderConfig) (totalSize : Int) : Option (List Batch) :=
  let np := determineNumParts cfg totalSize
  batchChunks { cfg with ChunkSize := np.2 } totalSize np.1

/-- Sum of the sizes of all chunks across all batches. -/
def chunkSizesSum (batches : List Batch) : Int :=
  ((batches.flatten).map DownloadChunk.size).sum

/-- A configuration that fixes the chunk size to 4 bytes. -/
def chunkSizeFourConfig : DownloaderConfig :=
  { MaxRetries := 5, MaxConcurrentDownloads := -1
    PartDeterminerFunc := none, ChunkSizeDeterminerFunc := none, ChunkSize := 4 }

/-- A configuration that fixes the chunk size to 5 bytes. -/
def chunkSizeFiveConfig : DownloaderConfig :=
  { MaxRetries := 5, MaxConcurrentDownloads := -1
    PartDeterminerFunc := none, ChunkSizeDeterminerFunc := none, ChunkSize := 5 }

/-- C1: the planner's chunks are claimed to tile `[0, total_size)` with
pairwise disjoint intervals whose sizes sum to `total_size`. The code
violates this: with chunk size 4 and total size 10 it truncates
`10 / 4` to 2 parts, producing chunks `[0,4)` and `[4,8)` whose sizes sum
to 8, so the tail `[8,10)` is never covered. -/
theorem C1_planner_drops_remainder :
    planChunks chunkSizeFourConfig 10 =
      some [[{ start := 0, size := 4, current := 0 }],
            [{ start := 4, size := 4, current := 0 }]] ∧
    chunkSizesSum [[{ start := 0, size := 4, current := 0 }],
                   [{ start := 4, size := 4, current := 0 }]] = 8 ∧
    (8 : Int) ≠ 10 := by
  refine ⟨rfl, rfl, by decide⟩

/-- C2: the claim says `num_parts = ceil(total_size / chunk_size)` and that
`chunk_size > total_size` yields one chunk of size `total_size`. The code
instead floors: with chunk size 4 and total 10 it plans 2 parts where the
ceiling is 3, and with chunk size 5 and total 3 it plans zero chunks. -/
theorem C2_num_parts_floor_not_ceil :
    determineNumParts chunkSizeFourConfig 10 = (2, 4) ∧
    ((10 : Int) + 4 - 1) / 4 = 3 ∧
    planChunks chunkSizeFiveConfig 3 = some [] := by
  refine ⟨rfl, by decide, rfl⟩

/-- C5: the claim says `batch_index = chunk_index / (chunk_count / max_concurrent)`
is always below `max_concurrent`. With 5 chunks and `max_concurrent = 2`,
chunk 4 gets index `4 / (5 / 2) = 2`, out of range for the 2 allocated
batches, so the scheduler fails (a runtime index-out-of-range panic in Go). -/
theorem C5_batch_index_out_of_range :
    batchChunksByMaxConcurrentParts 2 2 10 5 = none ∧
    Int.tdiv 4 (Int.tdiv 5 2) = 2 ∧
    ¬ Int.tdiv 4 (Int.tdiv 5 2) < 2 := by
  refine ⟨rfl, by decide, by decide⟩

/-- C6: the claim says `total_size == 0` yields zero chunks and no further
requests. With the default configuration the part determiner returns 1 at
size 0, so the planner yields one chunk of start 0 and size 0, and the
fetcher would issue a ranged GET with the malformed header `bytes=0--1`. -/
theorem C6_zero_size_yields_one_chunk :
    planChunks defaultDownloaderConfiguration 0 =
      some [[{ start := 0, size := 0, current := 0 }]] ∧
    GetBytesRange { start := 0, size := 0, current := 0 } = "bytes=0--1" ∧
    (some [[({ start := 0, size := 0, current := 0 } : DownloadChunk)]] ≠
      (some ([] : List Batch))) := by
  refine ⟨rfl, rfl, by decide⟩

/-- Go error values the probe and fetch paths manipulate: a raw transport
error, the `http.ErrNotSupported` and `http.ErrMissingFile` sentinels, and
the repository's `DownloadError{Message, Err}` wrapper; `nilError` stands
for a nil `Err` field inside a wrapper. -/
inductive GoError where
  | nilError
  | transport (msg : String)
  | errNotSupported
  | errMissingFile
  | downloadError (msg : String) (cause : GoError)
  deriving DecidableEq

/-- The response fields the prober reads. `ContentRange` is the value of
the `Content-Range` header as a character list. -/
structure HttpResponse where
  StatusCode : Int
  ContentLength : Int
  ContentRange : List Char
  deriving DecidableEq

/-- Decimal digit value of a character, `none` for a non-digit. -/
def decDigit (c : Char) : Option Int :=
  let n := c.toNat
  if 48 ≤ n ∧ n ≤ 57 then some (Int.ofNat (n - 48)) else none

/-- Accumulating base-10 digit parse; fails on any non-digit. -/
def goParseDigitsAux : List Char → Int → Option Int
  | [], acc => some acc
  | c :: rest, acc =>
    match decDigit c with
    | some d => goParseDigitsAux rest (acc * 10 + d)
    | none => none

/-- Model of `strconv.ParseInt(s, 10, 64)`: an optional sign followed by a
nonempty run of decimal digits; `none` is Go's parse error. -/
def goParseInt (cs : List Char) : Option Int :=
  match cs with
  | [] => none
  | '-' :: rest => if rest = [] then none else (goParseDigitsAux rest 0).map Int.neg
  | '+' :: rest => if rest = [] then none else goParseDigitsAux rest 0
  | _ => goParseDigitsAux cs 0

/-- The literal prefix `"bytes 0-0/"` the Go code slices off. -/
def contentRangePrefixChars : List Char := "bytes 0-0/".toList

/-- Outcome of a probe step: a size, a Go error, or a nil-pointer
dereference (the Go code reading a field of a nil response / slicing a
too-short header, which panics at runtime). -/
inductive ProbeOutcome where
  | ok (size : Int)
  | err (e : GoError)
  | nilDeref
  deriving DecidableEq

/-- An HTTP call's result as net/http hands it back: an optional response
and an optional error (a failed call yields no response). -/
abbrev HttpResult := Option HttpResponse × Option GoError

/-- Embedding of `downloadManager.doHeadRequest`: the code inspects
`resp.StatusCode` before checking `err`, so a call that failed with no
response is a nil dereference. -/
def doHeadRequest (head : HttpResult) : ProbeOutcome :=
  match head with
  | (none, _) => ProbeOutcome.nilDeref
  | (some resp, e) =>
    if resp.StatusCode = 405 ∨ resp.StatusCode = 403 then
      ProbeOutcome.err
        (GoError.downloadError "Response status code is not 200" GoError.errNotSupported)
    else
      match e with
      | some e2 => ProbeOutcome.err e2
      | none => ProbeOutcome.ok resp.ContentLength

/-- Embedding of `downloadManager.doGetZero`: expects 206, then takes the
header text after `"bytes 0-0/"` and parses it. The Go slice expression
`contentRange[10:]` panics when the header is shorter, modelled `nilDeref`. -/
def doGetZero (get : HttpResult) : ProbeOutcome :=
  match get with
  | (none, _) => ProbeOutcome.nilDeref
  | (some resp, e) =>
    if resp.StatusCode ≠ 206 then
      ProbeOutcome.err
        (GoError.downloadError "Response status code is not 206" (e.getD GoError.nilError))
    else
      match e with
      | some e2 =>
        ProbeOutcome.err (GoError.downloadError "Failed to do request" e2)
      | none =>
        if resp.ContentRange.length < contentRangePrefixChars.length then ProbeOutcome.nilDeref
        else
          match goParseInt (resp.ContentRange.drop contentRangePrefixChars.length) with
          | some size => ProbeOutcome.ok size
          | none =>
            ProbeOutcome.err (GoError.downloadError "Failed to parse file size" GoError.nilError)

/-- The tail of `getFileSize` (the `if err != nil` block): compares the
error against the `http.ErrNotSupported` and `http.ErrMissingFile`
sentinels (a `*DownloadError` never equals either) and wraps it. -/
def getFileSizeErrTail (e : GoError) : ProbeOutcome :=
  if e = GoError.errNotSupported then
    ProbeOutcome.err
      (GoError.downloadError "The server does not support range requests" e)
  else if e = GoError.errMissingFile then
    ProbeOutcome.err (GoError.downloadError "The file does not exist" e)
  else
    ProbeOutcome.err (GoError.downloadError "Failed to get file size" e)

/-- Embedding of `downloadManager.getFileSize`: the fallback to `doGetZero`
runs only when the HEAD error is a `*DownloadError` whose cause is NOT
`http.ErrNotSupported` — but `doHeadRequest` only ever builds a
`*DownloadError` with exactly that cause, so the guard is inverted. -/
def getFileSize (head get : HttpResult) : ProbeOutcome :=
  match doHeadRequest head with
  | ProbeOutcome.nilDeref => ProbeOutcome.nilDeref
  | ProbeOutcome.ok size => ProbeOutcome.ok size
  | ProbeOutcome.err e =>
    match e with
    | GoError.downloadError msg cause =>
      if cause ≠ GoError.errNotSupported then
        match doGetZero get with
        | ProbeOutcome.ok size => ProbeOutcome.ok size
        | ProbeOutcome.nilDeref => ProbeOutcome.nilDeref
        | ProbeOutcome.err _ =>
          ProbeOutcome.err
            (GoError.downloadError "Failed to get file size" (GoError.downloadError msg cause))
      else getFileSizeErrTail (GoError.downloadError msg cause)
    | e2 => getFileSizeErrTail e2

/-- A HEAD response with status 405 and no transport error. -/
def head405 : HttpResult :=
  (some { StatusCode := 405, ContentLength := 0, ContentRange := [] }, none)

/-- A 206 response to the GET-zero probe advertising total size 2048. -/
def get206of2048 : HttpResult :=
  (some { StatusCode := 206, ContentLength := 1, ContentRange := "bytes 0-0/2048".toList },
   none)

/-- C3: the claim says a 405 (or 403) HEAD answer makes the prober fall
back to the GET-zero probe and return the total parsed from Content-Range.
In the code the fallback guard `err.Err != http.ErrNotSupported` is
inverted, so on a 405 HEAD it never calls `doGetZero` and returns a
"Failed to get file size" error even though the fallback would have
succeeded with 2048. -/
theorem C3_no_fallback_on_405 :
    getFileSize head405 get206of2048 =
      ProbeOutcome.err
        (GoError.downloadError "Failed to get file size"
          (GoError.downloadError "Response status code is not 200"
            GoError.errNotSupported)) ∧
    doGetZero get206of2048 = ProbeOutcome.ok 2048 ∧
    getFileSize head405 get206of2048 ≠ ProbeOutcome.ok 2048 := by
  refine ⟨rfl, rfl, by decide⟩

/-- C9: the claim says the HEAD step checks the transport error before the
response status. The code reads `resp.StatusCode` first, so a HEAD call
that failed with no response is a nil-pointer dereference instead of the
transport error being returned. -/
theorem C9_head_checks_status_before_error :
    doHeadRequest (none, some (GoError.transport "connection refused")) =
      ProbeOutcome.nilDeref ∧
    ProbeOutcome.nilDeref ≠ ProbeOutcome.err (GoError.transport "connection refused") := by
  refine ⟨rfl, by decide⟩

/-- Model of the positional sink behind `WriteAtWriter` / `FileWriter`:
a log of `(offset, bytes)` writes. `writeAt` appends the write and, like a
healthy `os.File.WriteAt`, writes all supplied bytes and returns their
count. -/
structure Sink where
  writes : List (Int × List Nat)
  deriving DecidableEq

/-- The sink operation `WriteAt(p, off)`. -/
def Sink.writeAt (s : Sink) (p : List Nat) (off : Int) : Sink × Nat :=
  ({ writes := s.writes ++ [(off, p)] }, p.length)

/-- Embedding of `DownloadChunk.Write` (download_chunk.go): a full clamp
when the cursor has reached `size`, otherwise a `WriteAt` at
`start + current` followed by `current += n`. -/
def DownloadChunk.write (dc : DownloadChunk) (s : Sink) (p : List Nat) :
    DownloadChunk × Sink × Nat :=
  if dc.current ≥ dc.size then (dc, s, 0)
  else
    let r := Sink.writeAt s p (dc.start + dc.current)
    ({ dc with current := dc.current + Int.ofNat r.2 }, r.1, r.2)

/-- Whether the recorded sink write `w` places a byte at offset `o`. -/
def writeCoversOffset (w : Int × List Nat) (o : Int) : Prop :=
  w.1 ≤ o ∧ o < w.1 + Int.ofNat w.2.length

instance (w : Int × List Nat) (o : Int) : Decidable (writeCoversOffset w o) := by
  unfold writeCoversOffset
  exact instDecidableAnd

/-- Model of `io.Copy(chunk, resp.Body)`: the body arrives as a list of
read segments, each passed to `DownloadChunk.write`; a short write
(`n < len(p)` with nil error) aborts with `ErrShortWrite`, reported as the
`false` flag. Returns the updated chunk, sink, the byte count copied and
the success flag. -/
def ioCopy : DownloadChunk → Sink → List (List Nat) → DownloadChunk × Sink × Int × Bool
  | dc, s, [] => (dc, s, 0, true)
  | dc, s, p :: rest =>
    let r := DownloadChunk.write dc s p
    if r.2.2 < p.length then (r.1, r.2.1, Int.ofNat r.2.2, false)
    else
      let r2 := ioCopy r.1 r.2.1 rest
      (r2.1, r2.2.1, Int.ofNat r.2.2 + r2.2.2.1, r2.2.2.2)

/-- One fetch attempt's interaction with the environment: the request
build can fail, the transport can fail, or a response arrives with a
status code, a streamed body, and possibly a read error after the body
prefix was consumed. -/
inductive AttemptResp where
  | reqBuildErr
  | transportErr
  | status (code : Int) (body : List (List Nat)) (readErr : Bool)

/-- Embedding of `downloadManager.tryDownloadChunk`: build the request,
send it, require 206, stream the body into the chunk; any failure returns
0 and a wrapped error, leaving the chunk cursor wherever the copy got. -/
def tryDownloadChunk (dc : DownloadChunk) (s : Sink) (resp : AttemptResp) :
    DownloadChunk × Sink × Int × Option GoError :=
  match resp with
  | AttemptResp.reqBuildErr =>
    (dc, s, 0, some (GoError.downloadError "Failed to create request" GoError.nilError))
  | AttemptResp.transportErr =>
    (dc, s, 0, some (GoError.downloadError "Failed to do request" GoError.nilError))
  | AttemptResp.status code body readErr =>
    if code ≠ 206 then
      (dc, s, 0, some (GoError.downloadError "Failed to download chunk" GoError.nilError))
    else
      let r := ioCopy dc s body
      if r.2.2.2 = false ∨ readErr then
        (r.1, r.2.1, 0, some (GoError.downloadError "Failed to write chunk" GoError.nilError))
      else
        (r.1, r.2.1, r.2.2.1, none)

/-- The retry loop of `downloadManager.downloadChunk`: `k` iterations left,
`i` the attempt index, carrying the last attempt's `num` and `err` exactly
as the Go loop's variables. The chunk (passed by pointer in Go) and the
sink persist across attempts. -/
def downloadChunkGo : Nat → Nat → DownloadChunk → Sink → (Nat → AttemptResp) →
    Int → Option GoError → DownloadChunk × Sink × Int × Option GoError
  | 0, _, dc, s, _, num, e => (dc, s, num, e)
  | Nat.succ k, i, dc, s, resps, _, _ =>
    let r := tryDownloadChunk dc s (resps i)
    match r.2.2.2 with
    | none => (r.1, r.2.1, r.2.2.1, none)
    | some e2 => downloadChunkGo k (i + 1) r.1 r.2.1 resps r.2.2.1 (some e2)

/-- Embedding of `downloadManager.downloadChunk`: `for i := 0; i < MaxRetries`
around `tryDownloadChunk`, returning the zero-valued `num, err` when the
loop body never runs. -/
def downloadChunk (maxRetries : Int) (dc : DownloadChunk) (s : Sink)
    (resps : Nat → AttemptResp) : DownloadChunk × Sink × Int × Option GoError :=
  downloadChunkGo maxRetries.toNat 0 dc s resps 0 none

/-- The shared fields of `downloadManager` mutated under its mutex. -/
structure DownloadState where
  totalBytes : Int
  written : Int
  err : Option GoError
  deriving DecidableEq

/-- Embedding of `downloadManager.SetError`: an unconditional store. -/
def SetError (dm : DownloadState) (e : GoError) : DownloadState :=
  { dm with err := some e }

/-- Embedding of `downloadManager.AddWritten`. -/
def AddWritten (dm : DownloadState) (n : Int) : DownloadState :=
  { dm with written := dm.written + n }

/-- Embedding of `downloadManager.downloadBatch`: the worker walks its
chunks sequentially, pairing each chunk with the response oracle its
attempts will see; the first chunk error is stored via `SetError` and ends
the batch, otherwise the count is added via `AddWritten`. -/
def downloadBatch (maxRetries : Int) :
    DownloadState → Sink → List (DownloadChunk × (Nat → AttemptResp)) →
    DownloadState × Sink
  | st, s, [] => (st, s)
  | st, s, (dc, resps) :: rest =>
    let r := downloadChunk maxRetries dc s resps
    match r.2.2.2 with
    | some e => (SetError st e, r.2.1)
    | none => downloadBatch maxRetries (AddWritten st r.2.2.1) r.2.1 rest

/-- The response oracle of the C4 scenario: the first attempt is a 206
whose body delivers 4 bytes and then dies in a read error; the second
attempt is a clean 206 carrying the full 10-byte range. -/
def retryScenario (i : Nat) : AttemptResp :=
  if i = 0 then AttemptResp.status 206 [[1, 2, 3, 4]] true
  else AttemptResp.status 206 [[5, 6, 5, 6, 5, 6, 5, 6, 5, 6]] false

/-- C4: the claim says a retry writes the re-issued full-range response
starting again at the chunk's original `start`, overwriting the failed
attempt's bytes. The cursor is never rewound, so for a chunk at start 100
whose first attempt wrote 4 bytes before failing, the retry's body is
written at offset 104, not 100 — the re-sent range is shifted, not an
overwrite (and it runs past the chunk end, to offset 113). -/
theorem C4_retry_not_from_start :
    (downloadChunk 2 { start := 100, size := 10, current := 0 } { writes := [] }
        retryScenario).2.1.writes =
      [(100, [1, 2, 3, 4]), (104, [5, 6, 5, 6, 5, 6, 5, 6, 5, 6])] ∧
    (downloadChunk 2 { start := 100, size := 10, current := 0 } { writes := [] }
        retryScenario).1.current = 14 ∧
    (104 : Int) ≠ 100 := by
  refine ⟨rfl, rfl, by decide⟩

/-- C7 counterexample: with start 0, size 4 and cursor 3, a 5-byte slice is
forwarded whole to the sink at offset 3, so bytes land at offsets 4..7,
at and past `start + size = 4` — refuting the conjunct that `Write` never
causes bytes to be written at offsets at or past `start + size`. -/
theorem C7_write_past_end_counterexample :
    (DownloadChunk.write { start := 0, size := 4, current := 3 } { writes := [] }
        [9, 9, 9, 9, 9]).2.1.writes = [(3, [9, 9, 9, 9, 9])] ∧
    writeCoversOffset (3, [9, 9, 9, 9, 9]) 4 ∧
    (0 : Int) + 4 ≤ 4 := by
  refine ⟨rfl, by decide, by decide⟩

/-- C7 amended: `Write` forwards to the sink at `start + cursor` and
advances the cursor by the returned count, and a call with the cursor
already at (or past) `size` returns 0 without touching the sink; the
no-overrun guarantee holds only when the slice fits the remaining space,
`cursor + len(p) ≤ size`. -/
theorem C7_write_contract (dc : DownloadChunk) (s : Sink) (p : List Nat) :
    (dc.size ≤ dc.current → DownloadChunk.write dc s p = (dc, s, 0)) ∧
    (dc.current < dc.size →
      (DownloadChunk.write dc s p).2.1.writes = s.writes ++ [(dc.start + dc.current, p)] ∧
      (DownloadChunk.write dc s p).1.current = dc.current + Int.ofNat p.length ∧
      (DownloadChunk.write dc s p).2.2 = p.length ∧
      (dc.current + Int.ofNat p.length ≤ dc.size →
        dc.start + dc.current + Int.ofNat p.length ≤ dc.start + dc.size)) := by
  constructor
  · intro h
    simp [DownloadChunk.write, ge_iff_le, h]
  · intro h
    have hn : ¬ dc.size ≤ dc.current := not_le.mpr h
    refine ⟨?_, ?_, ?_, ?_⟩ <;>
      simp [DownloadChunk.write, Sink.writeAt, ge_iff_le, hn]
    omega

/-- Witness for the C7 amended contract at start 2, size 3, cursor 1 and a
2-byte slice. -/
theorem C7_write_contract_witness :
    (DownloadChunk.write { start := 2, size := 3, current := 1 } { writes := [] }
        [7, 8]).2.1.writes = [(3, [7, 8])] ∧
    (DownloadChunk.write { start := 2, size := 3, current := 1 } { writes := [] }
        [7, 8]).1.current = 3 ∧
    (2 : Int) + 1 + Int.ofNat ([7, 8] : List Nat).length ≤ 2 + 3 := by
  have h := (C7_write_contract { start := 2, size := 3, current := 1 } { writes := [] }
    [7, 8]).2 (by decide)
  refine ⟨by simpa using h.1, by simpa using h.2.1, h.2.2.2 (by decide)⟩

/-- C8 counterexample: with a first failure already stored, a second
`SetError` replaces it — the stored error afterwards is the second
failure, not the first. -/
theorem C8_error_overwritten_counterexample :
    (SetError (SetError { totalBytes := 0, written := 0, err := none }
        (GoError.transport "first")) (GoError.transport "second")).err =
      some (GoError.transport "second") ∧
    GoError.transport "second" ≠ GoError.transport "first" := by
  refine ⟨rfl, by decide⟩

/-- C8 amended: `SetError` stores unconditionally, so after any nonempty
serialized sequence of failure reports the stored error is the LAST one
reported, not the first. -/
theorem C8_last_error_wins (st : DownloadState) (es : List GoError) (h : es ≠ []) :
    (es.foldl SetError st).err = some (es.getLast h) := by
  induction es generalizing st with
  | nil => exact absurd rfl h
  | cons a t ih =>
    cases t with
    | nil => rfl
    | cons b u =>
      rw [List.foldl_cons, List.getLast_cons (by simp)]
      exact ih (SetError st a) (by simp)

/-- Witness for C8: two serialized failures leave the second one stored. -/
theorem C8_last_error_wins_witness :
    (([GoError.transport "first", GoError.transport "second"].foldl SetError
        { totalBytes := 0, written := 0, err := none }).err) =
      some (GoError.transport "second") := by
  have h := C8_last_error_wins { totalBytes := 0, written := 0, err := none }
    [GoError.transport "first", GoError.transport "second"] (by simp)
  simpa using h

/-- C10: with `max_retries = 0` the retry loop body never runs, so
`downloadChunk` performs zero attempts and returns `(0, none)` with the
chunk and sink untouched; the batch worker therefore records every such
chunk as a success contributing 0 bytes, leaving the shared state (and in
particular its error field) unchanged, and the download reports success. -/
theorem C10_zero_retries_reports_success (dc : DownloadChunk) (s : Sink)
    (resps : Nat → AttemptResp) (st : DownloadState)
    (items : List (DownloadChunk × (Nat → AttemptResp))) :
    downloadChunk 0 dc s resps = (dc, s, 0, none) ∧
    downloadBatch 0 st s items = (st, s) := by
  refine ⟨rfl, ?_⟩
  induction items generalizing st with
  | nil => rfl
  | cons hd tl ih =>
    have hadd : AddWritten st 0 = st := by
      simp [AddWritten]
    calc downloadBatch 0 st s (hd :: tl)
        = downloadBatch 0 (AddWritten st 0) s tl := rfl
      _ = (st, s) := by rw [hadd]; exact ih st

end GoDownloader
